import Mathlib

/-!
Shallow embedding of the recurring-task lifecycle, streak tracker and
away-period overlap guard of the productivity backend
(backend/app/models/task.py, streak.py, away_period.py and
backend/app/routers/tasks.py, away_periods.py), with proofs of the
testable properties stated in the specification.
-/

namespace ProductivityApp

/-- A calendar date as carried by Python's `datetime.date` (year, month, day). -/
structure Date where
  year : Nat
  month : Nat
  day : Nat
deriving DecidableEq, Repr

/-- Python date comparison `a <= b`: lexicographic on (year, month, day). -/
def Date.leb (a b : Date) : Bool :=
  if a.year ≠ b.year then decide (a.year < b.year)
  else if a.month ≠ b.month then decide (a.month < b.month)
  else decide (a.day ≤ b.day)

/-- A naive `datetime.datetime`: calendar fields down to seconds
(microseconds are never produced at a finer grain than the model needs;
they would be a seventh field handled identically). -/
structure DateTime where
  year : Nat
  month : Nat
  day : Nat
  hour : Nat
  minute : Nat
  second : Nat
deriving DecidableEq, Repr

/-- The `date()` part of a datetime. -/
def DateTime.dateOf (t : DateTime) : Date :=
  { year := t.year, month := t.month, day := t.day }

/-- Python date comparison `a < b` on the date parts: lexicographic on
(year, month, day), as in `datetime.date.__lt__`. -/
def DateTime.dateLt (a b : DateTime) : Bool :=
  if a.year ≠ b.year then decide (a.year < b.year)
  else if a.month ≠ b.month then decide (a.month < b.month)
  else decide (a.day < b.day)

/-- Gregorian leap-year test, as in `datetime._is_leap`. -/
def isLeap (y : Nat) : Bool :=
  y % 4 == 0 && (y % 100 != 0 || y % 400 == 0)

/-- Days in full years before year `y`, as in `datetime._days_before_year`. -/
def daysBeforeYear (y : Nat) : Nat :=
  (y - 1) * 365 + (y - 1) / 4 - (y - 1) / 100 + (y - 1) / 400

/-- Cumulative day counts before each month in a non-leap year
(`datetime._DAYS_BEFORE_MONTH`). -/
def daysBeforeMonthTable : List Nat :=
  [0, 31, 59, 90, 120, 151, 181, 212, 243, 273, 304, 334]

/-- Days in year `y` before month `m`, as in `datetime._days_before_month`. -/
def daysBeforeMonth (y m : Nat) : Nat :=
  daysBeforeMonthTable.getD (m - 1) 0 + (if 2 < m ∧ isLeap y then 1 else 0)

/-- Proleptic Gregorian ordinal of the date part, as in `datetime.date.toordinal`
(0001-01-01 is day 1). -/
def DateTime.toOrdinal (t : DateTime) : Nat :=
  daysBeforeYear t.year + daysBeforeMonth t.year t.month + t.day

/-- Seconds-since-epoch representation of a naive datetime; the difference of
two of these is exactly the `timedelta` Python computes for `a - b`. -/
def DateTime.toSecs (t : DateTime) : Int :=
  (t.toOrdinal : Int) * 86400 + (t.hour : Int) * 3600 + (t.minute : Int) * 60 + (t.second : Int)

/-- The `.days` attribute of the timedelta `a - b`: `timedelta` normalises so
that `days` is the floor of the total duration in days. -/
def deltaDays (a b : DateTime) : Int :=
  Int.fdiv (a.toSecs - b.toSecs) 86400

/-- Task frequency types (`TaskType` in task.py). -/
inductive TaskType
  | daily
  | weekly
  | monthly
  | long_term
  | gym_workout
deriving DecidableEq, Repr

/-- Task completion status (`TaskStatus` in task.py). -/
inductive TaskStatus
  | pending
  | completed
  | suggested
deriving DecidableEq, Repr

/-- The task record (mutable columns of the `Task` model in task.py).
`recurrence_time` is a time-of-day, modelled as seconds after midnight. -/
structure Task where
  title : String
  description : Option String
  type : TaskType
  recurrence : Option String
  status : TaskStatus
  is_recurring : Bool
  recurrence_time : Option Nat
  recurrence_day_of_week : Option Nat
  recurrence_day_of_month : Option Nat
  last_reset_date : Option DateTime
  pause_on_away : Bool
  due_date : Option DateTime
  completed_at : Option DateTime
  created_at : DateTime
  calendar_event_id : Option String
deriving DecidableEq, Repr

/-- `Task.mark_complete`: set status completed and stamp `completed_at` with
the current instant (`datetime.utcnow()` is passed in as `now`). -/
def Task.mark_complete (t : Task) (now : DateTime) : Task :=
  { t with status := TaskStatus.completed, completed_at := some now }

/-- `Task.mark_pending`: back to pending, clearing `completed_at`. -/
def Task.mark_pending (t : Task) : Task :=
  { t with status := TaskStatus.pending, completed_at := none }

/-- The `check_time` local of `Task.should_reset`:
`self.last_reset_date or self.completed_at` (first non-null, datetimes are
always truthy). -/
def Task.check_time (t : Task) : Option DateTime :=
  t.last_reset_date.orElse (fun _ => t.completed_at)

/-- `Task.should_reset`, branch for branch from task.py. -/
def Task.should_reset (t : Task) (now : DateTime) : Bool :=
  if ¬t.is_recurring ∨ t.status ≠ TaskStatus.completed then false
  else
    match t.check_time with
    | none => false
    | some ct =>
      if t.type = TaskType.daily then DateTime.dateLt ct now
      else if t.type = TaskType.weekly then decide (7 ≤ deltaDays now ct)
      else if t.type = TaskType.monthly then
        decide (ct.month ≠ now.month ∨ ct.year ≠ now.year)
      else false

/-- `Task.reset_recurring`: `mark_pending` then stamp `last_reset_date`. -/
def Task.reset_recurring (t : Task) (now : DateTime) : Task :=
  { t.mark_pending with last_reset_date := some now }

/-- Payload of `POST /` (`TaskCreate` schema in schemas/task.py): no status
and no completion fields can be supplied. -/
structure TaskCreate where
  title : String
  description : Option String
  type : TaskType
  recurrence : Option String
  pause_on_away : Bool
  due_date : Option DateTime
  is_recurring : Bool
  recurrence_time : Option Nat
  recurrence_day_of_week : Option Nat
  recurrence_day_of_month : Option Nat
deriving DecidableEq, Repr

/-- The `create_task` endpoint (routers/tasks.py): builds a row from the
payload; the status, completion and reset columns take the model defaults
(`pending`, null, null). -/
def create_task (c : TaskCreate) (now : DateTime) : Task :=
  { title := c.title
    description := c.description
    type := c.type
    recurrence := c.recurrence
    status := TaskStatus.pending
    is_recurring := c.is_recurring
    recurrence_time := c.recurrence_time
    recurrence_day_of_week := c.recurrence_day_of_week
    recurrence_day_of_month := c.recurrence_day_of_month
    last_reset_date := none
    pause_on_away := c.pause_on_away
    due_date := c.due_date
    completed_at := none
    created_at := now
    calendar_event_id := none }

/-- Payload of `PATCH /{task_id}` (`TaskUpdate` schema): every field optional.
The outer `Option` is `exclude_unset` (field provided or not); for columns
that are themselves nullable the inner `Option` is the provided value. -/
structure TaskUpdate where
  title : Option String
  description : Option (Option String)
  type : Option TaskType
  recurrence : Option (Option String)
  status : Option TaskStatus
  pause_on_away : Option Bool
  due_date : Option (Option DateTime)
  is_recurring : Option Bool
  recurrence_time : Option (Option Nat)
  recurrence_day_of_week : Option (Option Nat)
  recurrence_day_of_month : Option (Option Nat)
deriving DecidableEq, Repr

/-- The `update_task` endpoint: `setattr` of each provided field, nothing
else touched — in particular a provided `status` does not adjust
`completed_at`. -/
def update_task (t : Task) (u : TaskUpdate) : Task :=
  { t with
    title := u.title.getD t.title
    description := u.description.getD t.description
    type := u.type.getD t.type
    recurrence := u.recurrence.getD t.recurrence
    status := u.status.getD t.status
    pause_on_away := u.pause_on_away.getD t.pause_on_away
    due_date := u.due_date.getD t.due_date
    is_recurring := u.is_recurring.getD t.is_recurring
    recurrence_time := u.recurrence_time.getD t.recurrence_time
    recurrence_day_of_week := u.recurrence_day_of_week.getD t.recurrence_day_of_week
    recurrence_day_of_month := u.recurrence_day_of_month.getD t.recurrence_day_of_month }

/-- The state invariant of §3 of the spec: completed tasks carry a
completion stamp, pending tasks carry none. -/
def taskInvariant (t : Task) : Prop :=
  (t.status = TaskStatus.completed → t.completed_at.isSome = true) ∧
  (t.status = TaskStatus.pending → t.completed_at = none)

instance (t : Task) : Decidable (taskInvariant t) := by
  unfold taskInvariant; infer_instance

/-- The `reset_recurring_tasks` endpoint (the `sweep` of the spec): walk
the recurring tasks of the user, reset each one whose `should_reset` holds, and
count the resets. The DB query filter `is_recurring == True` appears as
the first conjunct; non-recurring rows are untouched. -/
def reset_recurring_tasks : List Task → DateTime → List Task × Nat
  | [], _ => ([], 0)
  | t :: ts, now =>
    let rest := reset_recurring_tasks ts now
    if t.is_recurring = true ∧ t.should_reset now = true then
      (t.reset_recurring now :: rest.1, rest.2 + 1)
    else
      (t :: rest.1, rest.2)

/-- The streak record (streak.py). -/
structure Streak where
  current_streak : Nat
  longest_streak : Nat
  last_completed_date : Option Date
  visual_theme : String
deriving DecidableEq, Repr

/-- `Streak.update_visual_theme`: thresholds checked high to low. -/
def Streak.update_visual_theme (s : Streak) : Streak :=
  if 90 ≤ s.current_streak then { s with visual_theme := "gold" }
  else if 30 ≤ s.current_streak then { s with visual_theme := "silver" }
  else if 7 ≤ s.current_streak then { s with visual_theme := "bronze" }
  else { s with visual_theme := "basic" }

/-- `Streak.increment_streak`: bump the counter, stamp today, raise the
longest-streak high-water mark if exceeded, then recompute the theme
(`date.today()` is passed in as `today`). -/
def Streak.increment_streak (s : Streak) (today : Date) : Streak :=
  let s1 : Streak :=
    { s with current_streak := s.current_streak + 1, last_completed_date := some today }
  let s2 : Streak :=
    if s1.longest_streak < s1.current_streak then
      { s1 with longest_streak := s1.current_streak }
    else s1
  s2.update_visual_theme

/-- `Streak.break_streak`: zero the counter and theme; the longest streak
is left alone. -/
def Streak.break_streak (s : Streak) : Streak :=
  { s with current_streak := 0, visual_theme := "basic" }

/-- A streak row as created with its task: column defaults 0 / 0 / null /
"basic". -/
def freshStreak : Streak :=
  { current_streak := 0, longest_streak := 0, last_completed_date := none,
    visual_theme := "basic" }

/-- The away-period record (away_period.py). -/
structure AwayPeriod where
  id : Nat
  user_id : Nat
  start_date : Date
  end_date : Date
  is_active : Bool
deriving DecidableEq, Repr

/-- `AwayPeriod.deactivate`. -/
def AwayPeriod.deactivate (p : AwayPeriod) : AwayPeriod :=
  { p with is_active := false }

/-- The error raised by the create endpoint on overlap:
`HTTPException(status_code=400, detail=...(id: overlapping.id))`. -/
structure OverlapError where
  status_code : Nat
  overlapping_id : Nat
deriving DecidableEq, Repr

/-- The filter of the overlap query in `create_away_period`: same owner,
still active, and the inclusive ranges intersect
(`start_date <= new.end_date AND end_date >= new.start_date`). -/
def overlapsQuery (uid : Nat) (s e : Date) (p : AwayPeriod) : Bool :=
  p.user_id == uid && p.is_active && Date.leb p.start_date e && Date.leb s p.end_date

/-- The `create_away_period` endpoint: first matching active overlapping
period aborts with the 400 error carrying its id; otherwise the period is
inserted with the `is_active` column default `true`. -/
def create_away_period (existing : List AwayPeriod) (uid nextId : Nat)
    (s e : Date) : Except OverlapError AwayPeriod :=
  match existing.find? (overlapsQuery uid s e) with
  | some p => Except.error { status_code := 400, overlapping_id := p.id }
  | none =>
    Except.ok { id := nextId, user_id := uid, start_date := s, end_date := e,
                is_active := true }

/-! Helper lemmas. -/

/-- Boolean date comparison agrees with the lexicographic earlier-day
predicate. -/
lemma dateLt_iff (a b : DateTime) :
    DateTime.dateLt a b = true ↔
      (a.year < b.year ∨ (a.year = b.year ∧
        (a.month < b.month ∨ (a.month = b.month ∧ a.day < b.day)))) := by
  unfold DateTime.dateLt
  by_cases h1 : a.year = b.year <;> by_cases h2 : a.month = b.month <;>
    simp [h1, h2]

/-- Floor division by 86400 reaches 7 exactly when the duration reaches
7 times 86400 seconds. -/
lemma fdiv_seven_days (s : Int) : 7 ≤ Int.fdiv s 86400 ↔ 7 * 86400 ≤ s := by
  rw [Int.fdiv_eq_ediv s (by norm_num)]
  omega

/-- A task just put through `reset_recurring` is pending, hence never due
for another reset. -/
lemma should_reset_after_reset (t : Task) (now now' : DateTime) :
    (t.reset_recurring now).should_reset now' = false := by
  unfold Task.reset_recurring Task.mark_pending Task.should_reset
  simp

/-- `mark_complete` establishes the state invariant outright. -/
lemma taskInvariant_mark_complete (t : Task) (now : DateTime) :
    taskInvariant (t.mark_complete now) := by
  unfold taskInvariant Task.mark_complete
  simp

/-- `mark_pending` establishes the state invariant outright. -/
lemma taskInvariant_mark_pending (t : Task) :
    taskInvariant t.mark_pending := by
  unfold taskInvariant Task.mark_pending
  simp

/-- `reset_recurring` establishes the state invariant outright. -/
lemma taskInvariant_reset_recurring (t : Task) (now : DateTime) :
    taskInvariant (t.reset_recurring now) := by
  unfold taskInvariant Task.reset_recurring Task.mark_pending
  simp

/-- Every task coming out of the sweep satisfies the invariant provided
every task going in did. -/
lemma sweep_preserves_invariant (ts : List Task) (now : DateTime)
    (h : ∀ t ∈ ts, taskInvariant t) :
    ∀ t' ∈ (reset_recurring_tasks ts now).1, taskInvariant t' := by
  induction ts with
  | nil => intro t' ht'; simp [reset_recurring_tasks] at ht'
  | cons t ts ih =>
    intro t' ht'
    unfold reset_recurring_tasks at ht'
    by_cases hc : t.is_recurring = true ∧ t.should_reset now = true
    · rw [if_pos hc] at ht'
      rcases List.mem_cons.mp ht' with h1 | h1
      · rw [h1]; exact taskInvariant_reset_recurring t now
      · exact ih (fun x hx => h x (List.mem_cons_of_mem t hx)) t' h1
    · rw [if_neg hc] at ht'
      rcases List.mem_cons.mp ht' with h1 | h1
      · rw [h1]; exact h t (List.mem_cons_self t ts)
      · exact ih (fun x hx => h x (List.mem_cons_of_mem t hx)) t' h1

/-- The overlap filter as a proposition. -/
lemma overlapsQuery_iff (uid : Nat) (s e : Date) (p : AwayPeriod) :
    overlapsQuery uid s e p = true ↔
      (p.user_id = uid ∧ p.is_active = true ∧
       Date.leb p.start_date e = true ∧ Date.leb s p.end_date = true) := by
  simp [overlapsQuery, and_assoc]

/-- `increment_streak` adds one to the counter. -/
lemma increment_current (s : Streak) (d : Date) :
    (s.increment_streak d).current_streak = s.current_streak + 1 := by
  by_cases hl : s.longest_streak < s.current_streak + 1 <;>
    simp [Streak.increment_streak, Streak.update_visual_theme, hl] <;>
    split_ifs <;> rfl

/-- `increment_streak` raises the high-water mark to the maximum of the old
longest streak and the new counter. -/
lemma increment_longest (s : Streak) (d : Date) :
    (s.increment_streak d).longest_streak =
      max s.longest_streak (s.current_streak + 1) := by
  by_cases hl : s.longest_streak < s.current_streak + 1
  · simp only [Streak.increment_streak, Streak.update_visual_theme, hl, if_true]
    split_ifs <;> simp <;> omega
  · simp only [Streak.increment_streak, Streak.update_visual_theme, hl, if_false]
    split_ifs <;> simp <;> omega

/-- The theme after `increment_streak` follows the thresholds at the new
counter value. -/
lemma increment_theme (s : Streak) (d : Date) :
    (s.increment_streak d).visual_theme =
      (if 90 ≤ s.current_streak + 1 then "gold"
       else if 30 ≤ s.current_streak + 1 then "silver"
       else if 7 ≤ s.current_streak + 1 then "bronze" else "basic") := by
  by_cases hl : s.longest_streak < s.current_streak + 1 <;>
    simp [Streak.increment_streak, Streak.update_visual_theme, hl] <;>
    split_ifs <;> rfl

/-- Sample task builder used by the concrete witnesses below. -/
def mkTask (ty : TaskType) (st : TaskStatus) (rec : Bool)
    (lrd ca : Option DateTime) : Task :=
  { title := "t", description := none, type := ty, recurrence := none,
    status := st, is_recurring := rec, recurrence_time := none,
    recurrence_day_of_week := none, recurrence_day_of_month := none,
    last_reset_date := lrd, pause_on_away := true, due_date := none,
    completed_at := ca, created_at := ⟨2024, 1, 1, 0, 0, 0⟩,
    calendar_event_id := none }

/-! Claim theorems. -/

/-- Claim C1: for every recurring Daily task with status Completed whose
`check_time` (last_reset_date if set, else completed_at) is defined,
`should_reset` returns true if and only if `check_time` falls on an earlier
calendar day than the current instant — a calendar-day boundary test,
independent of elapsed hours. -/
theorem daily_reset_iff_earlier_day (t : Task) (now ct : DateTime)
    (hrec : t.is_recurring = true) (hst : t.status = TaskStatus.completed)
    (hty : t.type = TaskType.daily) (hct : t.check_time = some ct) :
    t.should_reset now = true ↔
      (ct.year < now.year ∨ (ct.year = now.year ∧
        (ct.month < now.month ∨ (ct.month = now.month ∧ ct.day < now.day)))) := by
  unfold Task.should_reset
  rw [hct]
  simp [hrec, hst, hty, dateLt_iff]

/-- Claim C1 witness: a task completed 2024-03-01 23:59 resets at
2024-03-02 00:01 (two elapsed minutes, one calendar-day boundary). -/
theorem daily_reset_iff_earlier_day_holds :
    (mkTask TaskType.daily TaskStatus.completed true none
        (some ⟨2024, 3, 1, 23, 59, 0⟩)).should_reset ⟨2024, 3, 2, 0, 1, 0⟩ = true :=
  (daily_reset_iff_earlier_day
    (mkTask TaskType.daily TaskStatus.completed true none (some ⟨2024, 3, 1, 23, 59, 0⟩))
    ⟨2024, 3, 2, 0, 1, 0⟩ ⟨2024, 3, 1, 23, 59, 0⟩ rfl rfl rfl rfl).2 (by decide)

/-- Claim C2: for every recurring Weekly task with status Completed whose
`check_time` is defined, `should_reset` returns true if and only if at least
7 times 86400 seconds have elapsed from `check_time` to the current
instant — a rolling duration with the boundary at exactly 7 days. -/
theorem weekly_reset_iff_seven_days (t : Task) (now ct : DateTime)
    (hrec : t.is_recurring = true) (hst : t.status = TaskStatus.completed)
    (hty : t.type = TaskType.weekly) (hct : t.check_time = some ct) :
    t.should_reset now = true ↔ 7 * 86400 ≤ now.toSecs - ct.toSecs := by
  unfold Task.should_reset
  rw [hct]
  simp [hrec, hst, hty, deltaDays, fdiv_seven_days]

/-- Claim C2 witness: at 6 days 23 hours 59 minutes the task does not reset,
at exactly 7 days it does. -/
theorem weekly_reset_iff_seven_days_holds :
    (mkTask TaskType.weekly TaskStatus.completed true none
        (some ⟨2024, 3, 1, 0, 0, 0⟩)).should_reset ⟨2024, 3, 7, 23, 59, 0⟩ = false ∧
    (mkTask TaskType.weekly TaskStatus.completed true none
        (some ⟨2024, 3, 1, 0, 0, 0⟩)).should_reset ⟨2024, 3, 8, 0, 0, 0⟩ = true := by
  constructor
  · have h := (weekly_reset_iff_seven_days
      (mkTask TaskType.weekly TaskStatus.completed true none (some ⟨2024, 3, 1, 0, 0, 0⟩))
      ⟨2024, 3, 7, 23, 59, 0⟩ ⟨2024, 3, 1, 0, 0, 0⟩ rfl rfl rfl rfl)
    have hn : ¬ (7 * 86400 ≤ (⟨2024, 3, 7, 23, 59, 0⟩ : DateTime).toSecs -
        (⟨2024, 3, 1, 0, 0, 0⟩ : DateTime).toSecs) := by decide
    exact Bool.not_eq_true _ |>.mp (fun hb => hn (h.mp hb))
  · exact (weekly_reset_iff_seven_days
      (mkTask TaskType.weekly TaskStatus.completed true none (some ⟨2024, 3, 1, 0, 0, 0⟩))
      ⟨2024, 3, 8, 0, 0, 0⟩ ⟨2024, 3, 1, 0, 0, 0⟩ rfl rfl rfl rfl).2 (by decide)

/-- Claim C3: for every recurring Monthly task with status Completed whose
`check_time` is defined, `should_reset` returns true if and only if the
(month, year) pair of `check_time` differs from that of the current
instant. -/
theorem monthly_reset_iff_month_differs (t : Task) (now ct : DateTime)
    (hrec : t.is_recurring = true) (hst : t.status = TaskStatus.completed)
    (hty : t.type = TaskType.monthly) (hct : t.check_time = some ct) :
    t.should_reset now = true ↔ (ct.month ≠ now.month ∨ ct.year ≠ now.year) := by
  unfold Task.should_reset
  rw [hct]
  simp [hrec, hst, hty]

/-- Claim C3 witness: completed 2024-01-31, the task resets on 2024-02-01
but not later on 2024-01-31. -/
theorem monthly_reset_iff_month_differs_holds :
    (mkTask TaskType.monthly TaskStatus.completed true none
        (some ⟨2024, 1, 31, 12, 0, 0⟩)).should_reset ⟨2024, 2, 1, 0, 1, 0⟩ = true ∧
    (mkTask TaskType.monthly TaskStatus.completed true none
        (some ⟨2024, 1, 31, 12, 0, 0⟩)).should_reset ⟨2024, 1, 31, 23, 0, 0⟩ = false := by
  constructor
  · exact (monthly_reset_iff_month_differs
      (mkTask TaskType.monthly TaskStatus.completed true none (some ⟨2024, 1, 31, 12, 0, 0⟩))
      ⟨2024, 2, 1, 0, 1, 0⟩ ⟨2024, 1, 31, 12, 0, 0⟩ rfl rfl rfl rfl).2 (by decide)
  · have h := (monthly_reset_iff_month_differs
      (mkTask TaskType.monthly TaskStatus.completed true none (some ⟨2024, 1, 31, 12, 0, 0⟩))
      ⟨2024, 1, 31, 23, 0, 0⟩ ⟨2024, 1, 31, 12, 0, 0⟩ rfl rfl rfl rfl)
    exact Bool.not_eq_true _ |>.mp (fun hb => (by decide :
      ¬ ((⟨2024, 1, 31, 12, 0, 0⟩ : DateTime).month ≠ (⟨2024, 1, 31, 23, 0, 0⟩ : DateTime).month ∨
         (⟨2024, 1, 31, 12, 0, 0⟩ : DateTime).year ≠ (⟨2024, 1, 31, 23, 0, 0⟩ : DateTime).year))
      (h.mp hb))

/-- Claim C4: the batch reset endpoint is idempotent — a second run
immediately after a first one, with no intervening completion, resets
nothing, because every reset task is left pending and pending tasks never
satisfy `should_reset`. -/
theorem sweep_idempotent (tasks : List Task) (now : DateTime) :
    (reset_recurring_tasks (reset_recurring_tasks tasks now).1 now).2 = 0 := by
  induction tasks with
  | nil => rfl
  | cons t ts ih =>
    by_cases h : t.is_recurring = true ∧ t.should_reset now = true
    · simp only [reset_recurring_tasks, if_pos h]
      rw [if_neg]
      · exact ih
      · intro hc
        rw [should_reset_after_reset] at hc
        exact absurd hc.2 (by simp)
    · simp only [reset_recurring_tasks, if_neg h]
      exact ih

/-- Claim C6: a LongTerm or GymWorkout task, a non-recurring task, a task
whose status is not Completed, or a task with neither last_reset_date nor
completed_at set, is never auto-reset: `should_reset` returns false. -/
theorem never_reset_cases (t : Task) (now : DateTime)
    (h : t.type = TaskType.long_term ∨ t.type = TaskType.gym_workout ∨
         t.is_recurring = false ∨ t.status ≠ TaskStatus.completed ∨
         (t.last_reset_date = none ∧ t.completed_at = none)) :
    t.should_reset now = false := by
  unfold Task.should_reset
  rcases h with h | h | h | h | ⟨h1, h2⟩
  · split
    · rfl
    · cases hc : t.check_time <;> simp [h]
  · split
    · rfl
    · cases hc : t.check_time <;> simp [h]
  · simp [h]
  · simp [h]
  · split
    · rfl
    · simp [Task.check_time, h1, h2]

/-- Claim C6 witness: a completed recurring GymWorkout task never resets,
even a year later. -/
theorem never_reset_cases_holds :
    (mkTask TaskType.gym_workout TaskStatus.completed true none
        (some ⟨2024, 1, 1, 0, 0, 0⟩)).should_reset ⟨2025, 6, 1, 0, 0, 0⟩ = false :=
  never_reset_cases
    (mkTask TaskType.gym_workout TaskStatus.completed true none (some ⟨2024, 1, 1, 0, 0, 0⟩))
    ⟨2025, 6, 1, 0, 0, 0⟩ (Or.inr (Or.inl rfl))

/-- Claim C10: `mark_complete` followed by `mark_pending` leaves the task
pending with no completion stamp and mutates no other field: the result is
exactly the original task with only status and completed_at replaced. -/
theorem complete_then_pending_frame (t : Task) (now : DateTime) :
    ((t.mark_complete now).mark_pending).status = TaskStatus.pending ∧
    ((t.mark_complete now).mark_pending).completed_at = none ∧
    (t.mark_complete now).mark_pending =
      { t with status := TaskStatus.pending, completed_at := none } :=
  ⟨rfl, rfl, rfl⟩

/-- Claim C7: the visual theme is determined solely by the current streak
through the high-to-low thresholds (90 gold, 30 silver, 7 bronze, else
basic); iterating `increment_streak` from a fresh streak shows basic through
6 increments, bronze from the 7th, silver from the 30th, gold from the
90th. -/
theorem streak_theme_progression :
    (∀ s : Streak, (s.update_visual_theme).visual_theme =
      (if 90 ≤ s.current_streak then "gold"
       else if 30 ≤ s.current_streak then "silver"
       else if 7 ≤ s.current_streak then "bronze" else "basic")) ∧
    (∀ (n : Nat) (d : Date),
      ((fun s => Streak.increment_streak s d)^[n] freshStreak).current_streak = n ∧
      ((fun s => Streak.increment_streak s d)^[n] freshStreak).visual_theme =
        (if 90 ≤ n then "gold" else if 30 ≤ n then "silver"
         else if 7 ≤ n then "bronze" else "basic")) := by
  constructor
  · intro s
    unfold Streak.update_visual_theme
    split_ifs <;> rfl
  · intro n d
    induction n with
    | zero => exact ⟨rfl, rfl⟩
    | succ n ih =>
      rw [Function.iterate_succ_apply']
      refine ⟨?_, ?_⟩
      · rw [increment_current, ih.1]
      · rw [increment_theme, ih.1]

/-- Claim C8: `break_streak` zeroes the counter and resets the theme to
basic while leaving the longest streak (and the last completion date)
untouched; the invariant `current_streak ≤ longest_streak` is preserved by
both `break_streak` and `increment_streak`. -/
theorem break_streak_frame :
    (∀ s : Streak, (s.break_streak).current_streak = 0 ∧
      (s.break_streak).visual_theme = "basic" ∧
      (s.break_streak).longest_streak = s.longest_streak ∧
      (s.break_streak).last_completed_date = s.last_completed_date) ∧
    (∀ s : Streak, s.current_streak ≤ s.longest_streak →
      (s.break_streak).current_streak ≤ (s.break_streak).longest_streak) ∧
    (∀ (s : Streak) (d : Date), s.current_streak ≤ s.longest_streak →
      (s.increment_streak d).current_streak ≤ (s.increment_streak d).longest_streak) := by
  refine ⟨fun s => ⟨rfl, rfl, rfl, rfl⟩, fun s _ => Nat.zero_le _, fun s d _ => ?_⟩
  rw [increment_current, increment_longest]
  exact Nat.le_max_right _ _

/-- Claim C8 witness: breaking a streak of 12 with longest 40 gives counter
0, theme basic, longest still 40; incrementing a valid streak keeps the
invariant. -/
theorem break_streak_frame_holds :
    ((⟨12, 40, none, "bronze"⟩ : Streak).break_streak).current_streak = 0 ∧
    ((⟨12, 40, none, "bronze"⟩ : Streak).break_streak).visual_theme = "basic" ∧
    ((⟨12, 40, none, "bronze"⟩ : Streak).break_streak).longest_streak = 40 ∧
    ((⟨12, 40, none, "bronze"⟩ : Streak).break_streak).current_streak ≤
      ((⟨12, 40, none, "bronze"⟩ : Streak).break_streak).longest_streak ∧
    ((⟨12, 40, none, "bronze"⟩ : Streak).increment_streak ⟨2024, 1, 1⟩).current_streak ≤
      ((⟨12, 40, none, "bronze"⟩ : Streak).increment_streak ⟨2024, 1, 1⟩).longest_streak :=
  ⟨(break_streak_frame.1 ⟨12, 40, none, "bronze"⟩).1,
   (break_streak_frame.1 ⟨12, 40, none, "bronze"⟩).2.1,
   (break_streak_frame.1 ⟨12, 40, none, "bronze"⟩).2.2.1,
   break_streak_frame.2.1 ⟨12, 40, none, "bronze"⟩ (by decide),
   break_streak_frame.2.2 ⟨12, 40, none, "bronze"⟩ ⟨2024, 1, 1⟩ (by decide)⟩

/-- Claim C5 counterexample: the PATCH update endpoint applies a provided
status without touching completed_at, so updating a freshly created task to
Completed yields a completed task with no completion stamp — the invariant
fails after an exposed operation. -/
theorem update_status_breaks_invariant :
    ¬ taskInvariant (update_task
      (create_task ⟨"t", none, TaskType.daily, none, true, none, false, none, none, none⟩
        ⟨2024, 1, 1, 0, 0, 0⟩)
      ⟨none, none, none, none, some TaskStatus.completed, none, none, none, none,
       none, none⟩) := by
  decide

/-- Claim C5 amended: the task-state invariant (Completed implies a
completion stamp, Pending implies none) holds after creation and is
preserved by mark_complete, mark_pending, reset_recurring and the batch
sweep; the update endpoint preserves it only when the request does not set
the status field. -/
theorem task_invariant_preserved :
    (∀ (c : TaskCreate) (now : DateTime), taskInvariant (create_task c now)) ∧
    (∀ (t : Task) (now : DateTime), taskInvariant (t.mark_complete now)) ∧
    (∀ t : Task, taskInvariant t.mark_pending) ∧
    (∀ (t : Task) (now : DateTime), taskInvariant (t.reset_recurring now)) ∧
    (∀ (ts : List Task) (now : DateTime), (∀ t ∈ ts, taskInvariant t) →
      ∀ t' ∈ (reset_recurring_tasks ts now).1, taskInvariant t') ∧
    (∀ (t : Task) (u : TaskUpdate), u.status = none → taskInvariant t →
      taskInvariant (update_task t u)) := by
  refine ⟨?_, taskInvariant_mark_complete, taskInvariant_mark_pending,
    taskInvariant_reset_recurring, sweep_preserves_invariant, ?_⟩
  · intro c now
    unfold taskInvariant create_task
    simp
  · intro t u hs ht
    unfold taskInvariant update_task
    rw [hs]
    exact ht

/-- Claim C5 amended witness: a title-only update of a freshly created task
keeps the invariant. -/
theorem task_invariant_preserved_holds :
    taskInvariant (update_task
      (create_task ⟨"t", none, TaskType.daily, none, true, none, false, none, none, none⟩
        ⟨2024, 1, 1, 0, 0, 0⟩)
      ⟨some "u", none, none, none, none, none, none, none, none, none, none⟩) :=
  task_invariant_preserved.2.2.2.2.2
    (create_task ⟨"t", none, TaskType.daily, none, true, none, false, none, none, none⟩
      ⟨2024, 1, 1, 0, 0, 0⟩)
    ⟨some "u", none, none, none, none, none, none, none, none, none, none⟩
    rfl
    (task_invariant_preserved.1
      ⟨"t", none, TaskType.daily, none, true, none, false, none, none, none⟩
      ⟨2024, 1, 1, 0, 0, 0⟩)

/-- Claim C9: away-period creation fails (with the 400 error carrying the
conflicting id) exactly when some existing active period of the same owner
overlaps the new inclusive range; on the no-overlap branch it creates the
period with is_active true. -/
theorem away_overlap_guard (existing : List AwayPeriod) (uid nid : Nat)
    (s e : Date) :
    ((∃ err, create_away_period existing uid nid s e = Except.error err) ↔
      ∃ p ∈ existing, p.user_id = uid ∧ p.is_active = true ∧
        Date.leb p.start_date e = true ∧ Date.leb s p.end_date = true) ∧
    ((∀ p ∈ existing, ¬(p.user_id = uid ∧ p.is_active = true ∧
        Date.leb p.start_date e = true ∧ Date.leb s p.end_date = true)) →
      create_away_period existing uid nid s e =
        Except.ok { id := nid, user_id := uid, start_date := s, end_date := e,
                    is_active := true }) := by
  unfold create_away_period
  cases hf : existing.find? (overlapsQuery uid s e) with
  | none =>
    refine ⟨⟨fun ⟨err, h⟩ => absurd h (by simp), fun ⟨p, hp, hq⟩ => ?_⟩, fun _ => rfl⟩
    exact absurd ((overlapsQuery_iff uid s e p).mpr hq)
      (List.find?_eq_none.mp hf p hp)
  | some p =>
    refine ⟨⟨fun _ => ?_, fun _ => ⟨_, rfl⟩⟩, fun hno => ?_⟩
    · exact ⟨p, List.mem_of_find?_eq_some hf,
        (overlapsQuery_iff uid s e p).mp (List.find?_some hf)⟩
    · exact absurd ((overlapsQuery_iff uid s e p).mp (List.find?_some hf))
        (hno p (List.mem_of_find?_eq_some hf))

/-- Claim C9 witness: with an active period 2024-03-01..2024-03-10, creating
2024-03-05..2024-03-20 is rejected, the adjacent 2024-03-11..2024-03-20
succeeds, and a deactivated period does not block. -/
theorem away_overlap_guard_holds :
    (∃ err, create_away_period [⟨1, 0, ⟨2024, 3, 1⟩, ⟨2024, 3, 10⟩, true⟩] 0 2
      ⟨2024, 3, 5⟩ ⟨2024, 3, 20⟩ = Except.error err) ∧
    create_away_period [⟨1, 0, ⟨2024, 3, 1⟩, ⟨2024, 3, 10⟩, true⟩] 0 2
      ⟨2024, 3, 11⟩ ⟨2024, 3, 20⟩ =
      Except.ok ⟨2, 0, ⟨2024, 3, 11⟩, ⟨2024, 3, 20⟩, true⟩ ∧
    create_away_period [⟨1, 0, ⟨2024, 3, 1⟩, ⟨2024, 3, 10⟩, false⟩] 0 2
      ⟨2024, 3, 5⟩ ⟨2024, 3, 20⟩ =
      Except.ok ⟨2, 0, ⟨2024, 3, 5⟩, ⟨2024, 3, 20⟩, true⟩ :=
  ⟨(away_overlap_guard [⟨1, 0, ⟨2024, 3, 1⟩, ⟨2024, 3, 10⟩, true⟩] 0 2
      ⟨2024, 3, 5⟩ ⟨2024, 3, 20⟩).1.mpr
      ⟨⟨1, 0, ⟨2024, 3, 1⟩, ⟨2024, 3, 10⟩, true⟩, by decide⟩,
   (away_overlap_guard [⟨1, 0, ⟨2024, 3, 1⟩, ⟨2024, 3, 10⟩, true⟩] 0 2
      ⟨2024, 3, 11⟩ ⟨2024, 3, 20⟩).2 (by decide),
   (away_overlap_guard [⟨1, 0, ⟨2024, 3, 1⟩, ⟨2024, 3, 10⟩, false⟩] 0 2
      ⟨2024, 3, 5⟩ ⟨2024, 3, 20⟩).2 (by decide)⟩

end ProductivityApp
